import Mathlib

/-!
Shallow embedding of `src/src/Hardware/Buzzer.cpp` (PanelDueFirmware).

The module owns two kinds of mutable data:
  * the C statics `beepTicksToGo`, `inBuzzer`, and the `ul_period` / `ul_duty`
    fields of the two `pwm_channel_t` instances — modelled as fields of
    `BuzzerState`;
  * the hardware registers touched through the ASF peripheral calls
    (`pwm_channel_init`, `pwm_channel_enable/disable`, the dead-time
    registers, `pio_configure`) — modelled as a list of `HwEvent` values
    emitted by each operation, in program order.

All machine integers in the source are `uint32_t` except `deadTime`, which is
`uint16_t`; arithmetic is carried out on `Nat` with an explicit `% 65536` at
the one point where the narrowing conversion happens.  The `uint32_t`
computations in `Beep` never overflow or underflow for any inputs reachable in
the code path (`period ≤ 2000000`, `period * volumeTable[i] ≤ 160000000 <
2^32`, and `onTime ≤ period/2`, proved below), so plain `Nat` arithmetic
coincides with the C semantics there.
-/

namespace Buzzer

/-- pwmClockFrequency = 2000000 (2MHz PWM clock, Buzzer.cpp line 20). -/
def pwmClockFrequency : Nat := 2000000

/-- backlightPwmFrequency in the IS_ER build: 20000 Hz (line 23). -/
def backlightPwmFrequencyER : Nat := 20000

/-- backlightPwmFrequency in the non-ER build: 300 Hz (line 25). -/
def backlightPwmFrequencyStd : Nat := 300

/-- backlightPeriod = pwmClockFrequency/backlightPwmFrequency, IS_ER build: 100. -/
def backlightPeriodER : Nat := pwmClockFrequency / backlightPwmFrequencyER

/-- backlightPeriod = pwmClockFrequency/backlightPwmFrequency, non-ER build: 6666. -/
def backlightPeriodStd : Nat := pwmClockFrequency / backlightPwmFrequencyStd

/-- minPwm, IS_ER build (line 36): the compile-time constant expression
`(uint32_t)((float)backlightPeriod * (3.3 - 1.45)/3.3)` with
backlightPeriod = 100 evaluates to `(uint32_t)56.0606...` = 56; the value is
far from an integer boundary, so double rounding cannot change it. -/
def minPwm : Nat := 56

/-- maxPwm, IS_ER build (line 37): `(uint32_t)((float)backlightPeriod *
(3.3 - 0.7)/3.3)` = `(uint32_t)78.7878...` = 78. -/
def maxPwm : Nat := 78

/-- Modelled from the spec: `MaxVolume` is declared in Configuration.hpp,
which is outside this repository slice.  The spec describes the volume table
as a "fixed ordered sequence of MaxVolume calibration constants", and the
table initializer in Buzzer.cpp line 107 lists exactly five constants
(3, 9, 20, 40, 80), so MaxVolume = 5. -/
def MaxVolume : Nat := 5

/-- volumeTable (line 107): `static const uint32_t volumeTable[MaxVolume] =
3, 9, 20, 40, 80`.  The source indexes it only with `volume - 1` after the
clamp, i.e. with indices 0..4; the catch-all case of this total function is
never reached on a code path. -/
def volumeTable : Nat → Nat
  | 0 => 3
  | 1 => 9
  | 2 => 20
  | 3 => 40
  | _ => 80

/-- PIO_PB0 bit mask. -/
def PIO_PB0 : Nat := 1

/-- PIO_PB1 bit mask. -/
def PIO_PB1 : Nat := 2

/-- PIO_PB5 bit mask. -/
def PIO_PB5 : Nat := 32

/-- Pin multiplexing modes passed to `pio_configure`. -/
inductive PioMode
  | periphA
  | periphB
  | output0
  deriving DecidableEq, Repr

/-- One hardware access performed through the PWM / PIO peripheral API. -/
inductive HwEvent
  | channelDisable (ch : Nat)
  | pwmInitClock
  | pioConfigure (mode : PioMode) (mask : Nat)
  | channelInit (ch : Nat) (period : Nat) (duty : Nat)
  | deadTimeEnable (ch : Nat)
  | deadTimeSet (ch : Nat) (value : Nat)
  | deadTimeUpdate (ch : Nat) (value : Nat)
  | channelEnable (ch : Nat)
  | boardPinSetInputPullup
  deriving DecidableEq, Repr

/-- The mutable C statics of the module. -/
structure BuzzerState where
  beepTicksToGo : Nat
  inBuzzer : Bool
  buzzer_period : Nat
  buzzer_duty : Nat
  backlight_period : Nat
  backlight_duty : Nat
  deriving DecidableEq, Repr

/-- Static initialization (lines 42-83): `beepTicksToGo = 0`,
`inBuzzer = true`; the commented-out designated initializers leave the
`pwm_channel_t` period/duty fields zero-initialized. -/
def initialState : BuzzerState :=
  { beepTicksToGo := 0
    inBuzzer := true
    buzzer_period := 0
    buzzer_duty := 0
    backlight_period := 0
    backlight_duty := 0 }

/-- period = pwmClockFrequency/frequency (line 122). -/
def periodOf (frequency : Nat) : Nat := pwmClockFrequency / frequency

/-- onTime = (period * volumeTable[volume - 1])/200 (line 125), for a volume
already clamped into 1..MaxVolume. -/
def onTimeOf (frequency volume : Nat) : Nat :=
  periodOf frequency * volumeTable (volume - 1) / 200

/-- Init (lines 86-105).  The board-type pin (IS_ER build) is configured as a
pull-up input but not read; the non-ER build omits that step (see `Init`). -/
def InitER (s : BuzzerState) : BuzzerState × List HwEvent :=
  ({ s with beepTicksToGo := 0, inBuzzer := false },
   [HwEvent.channelDisable 0, HwEvent.channelDisable 1, HwEvent.pwmInitClock,
    HwEvent.pioConfigure PioMode.periphA PIO_PB1,
    HwEvent.pioConfigure PioMode.output0 (PIO_PB0 ||| PIO_PB5),
    HwEvent.boardPinSetInputPullup])

/-- Init in the non-ER build: same as `InitER` minus the board-pin setup. -/
def Init (s : BuzzerState) : BuzzerState × List HwEvent :=
  ({ s with beepTicksToGo := 0, inBuzzer := false },
   [HwEvent.channelDisable 0, HwEvent.channelDisable 1, HwEvent.pwmInitClock,
    HwEvent.pioConfigure PioMode.periphA PIO_PB1,
    HwEvent.pioConfigure PioMode.output0 (PIO_PB0 ||| PIO_PB5)])

/-- Beep (lines 110-140).  `deadTime` is declared `uint16_t` in the source, so
the `uint32_t` value `period/2 - onTime` is narrowed with `% 65536`; the
subtraction itself never underflows (`onTime_le_half_period` below), so `Nat`
subtraction matches the `uint32_t` subtraction.  `deadTime << 16 | deadTime`
is `deadTime * 65536 + deadTime` since `deadTime < 65536`. -/
def Beep (frequency ms volume : Nat) (s : BuzzerState) : BuzzerState × List HwEvent :=
  if volume = 0 then (s, [])
  else
    let vol := if volume > MaxVolume then MaxVolume else volume
    let s1 : BuzzerState := { s with inBuzzer := true }
    if s1.beepTicksToGo = 0 then
      let period := periodOf frequency
      let onTime := onTimeOf frequency vol
      let deadTime := (period / 2 - onTime) % 65536
      let dtValue := deadTime * 65536 + deadTime
      ({ s1 with buzzer_period := period, buzzer_duty := period / 2,
                 beepTicksToGo := ms, inBuzzer := false },
       [HwEvent.channelInit 0 period (period / 2),
        HwEvent.deadTimeEnable 0,
        HwEvent.deadTimeSet 0 dtValue,
        HwEvent.deadTimeUpdate 0 dtValue,
        HwEvent.channelEnable 0,
        HwEvent.pioConfigure PioMode.periphA PIO_PB0,
        HwEvent.pioConfigure PioMode.periphB PIO_PB5])
    else ({ s1 with inBuzzer := false }, [])

/-- Tick (lines 143-155). -/
def Tick (s : BuzzerState) : BuzzerState × List HwEvent :=
  if s.inBuzzer = false ∧ s.beepTicksToGo ≠ 0 then
    let s1 : BuzzerState := { s with beepTicksToGo := s.beepTicksToGo - 1 }
    if s1.beepTicksToGo = 0 then
      (s1, [HwEvent.channelDisable 0,
            HwEvent.pioConfigure PioMode.output0 (PIO_PB0 ||| PIO_PB5)])
    else (s1, [])
  else (s, [])

/-- Noisy (lines 158-161): `return beepTicksToGo != 0`. -/
def Noisy (s : BuzzerState) : Bool := s.beepTicksToGo != 0

/-- State part of one Tick call. -/
def tickStep (s : BuzzerState) : BuzzerState := (Tick s).1

/-- State after k consecutive Tick calls. -/
def ticksN : Nat → BuzzerState → BuzzerState
  | 0, s => s
  | k + 1, s => tickStep (ticksN k s)

/-- Modelled from the spec: `MaxBrightness` is declared in Configuration.hpp,
outside this slice; the spec only fixes "a brightness level on a fixed integer
scale 0..MaxBrightness", so it is kept as an explicit parameter `maxB` here.
SetBacklight, non-ER build (lines 165-177 with the IS_ER branch elided). -/
def SetBacklight (maxB brightness : Nat) (s : BuzzerState) : BuzzerState × List HwEvent :=
  let duty := (backlightPeriodStd - 1) * (maxB - brightness) / maxB
  ({ s with backlight_period := backlightPeriodStd, backlight_duty := duty },
   [HwEvent.channelInit 1 backlightPeriodStd duty, HwEvent.channelEnable 1])

/-- SetBacklight, IS_ER build (lines 165-177).  `pinNow` is the level
`boardTypePort.read()` returns at the moment of this call; the source reads
the pin inside SetBacklight, on every call. -/
def SetBacklightER (pinNow : Bool) (maxB brightness : Nat) (s : BuzzerState) :
    BuzzerState × List HwEvent :=
  let duty :=
    if pinNow then (backlightPeriodER - 1) * (maxB - brightness) / maxB
    else minPwm + (maxPwm - minPwm) * (maxB - brightness) / maxB
  ({ s with backlight_period := backlightPeriodER, backlight_duty := duty },
   [HwEvent.channelInit 1 backlightPeriodER duty, HwEvent.channelEnable 1])

/-- Newer ER displays have PB13 grounded (comment, Buzzer.cpp line 35), so the
pull-up input reads low exactly on the boards with the newer MP3302 inverter
and smoothing filter. -/
def boardPinIndicatesNewer (pinLevel : Bool) : Bool := !pinLevel

/-! ### Basic lemmas -/

/-- Every table entry is at most 100 (the largest is 80). -/
theorem volumeTable_le (n : Nat) : volumeTable n ≤ 100 := by
  unfold volumeTable
  split <;> omega

/-- onTime never exceeds period/2: the `uint32_t` subtraction
`period/2 - onTime` in Beep cannot underflow, for any frequency and any
table index. -/
theorem onTime_le_half_period (frequency volume : Nat) :
    onTimeOf frequency volume ≤ periodOf frequency / 2 := by
  unfold onTimeOf
  calc periodOf frequency * volumeTable (volume - 1) / 200
      ≤ periodOf frequency * 100 / 200 :=
        Nat.div_le_div_right (Nat.mul_le_mul_left _ (volumeTable_le _))
    _ = periodOf frequency / 2 := by
        rw [Nat.mul_comm, show (200 : Nat) = 100 * 2 from rfl,
          Nat.mul_div_mul_left _ _ (by omega)]

/-- Noisy is exactly the test beepTicksToGo ≠ 0. -/
theorem noisy_iff (s : BuzzerState) : Noisy s = true ↔ s.beepTicksToGo ≠ 0 := by
  simp [Noisy]

/-- Tick never changes inBuzzer, and decrements beepTicksToGo by one
(saturating at zero). -/
theorem tickStep_fields (s : BuzzerState) :
    (tickStep s).inBuzzer = s.inBuzzer ∧
    (tickStep s).beepTicksToGo =
      (if s.inBuzzer = false then s.beepTicksToGo - 1 else s.beepTicksToGo) := by
  unfold tickStep Tick
  by_cases hb : s.inBuzzer = false
  · by_cases ht : s.beepTicksToGo = 0
    · simp [hb, ht]
    · simp only [hb, ht, ne_eq, not_false_eq_true, and_self, if_true, if_pos]
      split <;> simp [hb]
  · simp [hb]

/-- After k Ticks from a state with inBuzzer clear, inBuzzer is still clear
and beepTicksToGo has dropped by k (saturating). -/
theorem ticksN_fields (k : Nat) (s : BuzzerState) (h : s.inBuzzer = false) :
    (ticksN k s).inBuzzer = false ∧
    (ticksN k s).beepTicksToGo = s.beepTicksToGo - k := by
  induction k with
  | zero => simp [ticksN, h]
  | succ k ih =>
    obtain ⟨ih1, ih2⟩ := ih
    have hf := tickStep_fields (ticksN k s)
    constructor
    · rw [ticksN, hf.1, ih1]
    · rw [ticksN, hf.2, ih1, ih2]
      simp
      omega

/-- Beep from the idle state with nonzero volume loads the duration and ends
with inBuzzer clear. -/
theorem beep_from_idle (frequency ms volume : Nat) (s : BuzzerState)
    (hv : volume ≠ 0) (h0 : s.beepTicksToGo = 0) :
    (Beep frequency ms volume s).1.beepTicksToGo = ms ∧
    (Beep frequency ms volume s).1.inBuzzer = false := by
  unfold Beep
  simp [hv, h0]

/-! ### Claim theorems -/

/-- C9: for every frequency f and duration d, Beep(f, d, 0) is a pure no-op:
it leaves the entire tone state unchanged (remainingTicks and the suppression
flag included) and performs no PWM-register or pin write. -/
theorem c9_beep_zero_volume_noop (frequency ms : Nat) (s : BuzzerState) :
    Beep frequency ms 0 s = (s, []) := by
  simp [Beep]

/-- C10: before Init has run, the statics are `beepTicksToGo = 0` and
`inBuzzer = true`, so every Tick call made before Init is a complete no-op:
the single call returns the state unchanged with no hardware write, and any
number of consecutive pre-Init Tick calls leaves the state untouched. -/
theorem c10_tick_before_init_noop :
    Tick initialState = (initialState, []) ∧
    ∀ k, ticksN k initialState = initialState := by
  constructor
  · rfl
  · intro k
    induction k with
    | zero => rfl
    | succ k ih => rw [ticksN, ih]; rfl

/-- C8: for every frequency, duration and volume v with v > MaxVolume,
Beep(f, d, v) behaves identically to Beep(f, d, MaxVolume): same resulting
state and the same sequence of programmed PWM parameters. -/
theorem c8_beep_clamps_volume (frequency ms volume : Nat) (s : BuzzerState)
    (h : volume > MaxVolume) :
    Beep frequency ms volume s = Beep frequency ms MaxVolume s := by
  have hv0 : volume ≠ 0 := by
    have h5 : MaxVolume = 5 := rfl
    omega
  have h5 : 5 < volume := h
  unfold Beep
  simp [hv0, MaxVolume, h5]

/-- Witness for C8 at volume 6. -/
theorem c8_beep_clamps_volume_witness :
    6 > MaxVolume ∧
    Beep 440 10 6 (Init initialState).1 = Beep 440 10 MaxVolume (Init initialState).1 :=
  ⟨by decide, c8_beep_clamps_volume 440 10 6 (Init initialState).1 (by decide)⟩

/-- C3: a Beep call made while a tone is active (Noisy() = true) leaves
remainingTicks unchanged, leaves the previously programmed buzzer period and
duty untouched, and performs no PWM-register or pin-configuration write, so
the in-progress tone completes at its original tick count with its original
parameters. -/
theorem c3_beep_while_noisy_frame (frequency ms volume : Nat) (s : BuzzerState)
    (h : Noisy s = true) :
    (Beep frequency ms volume s).1.beepTicksToGo = s.beepTicksToGo ∧
    (Beep frequency ms volume s).1.buzzer_period = s.buzzer_period ∧
    (Beep frequency ms volume s).1.buzzer_duty = s.buzzer_duty ∧
    (Beep frequency ms volume s).2 = [] := by
  have ht : s.beepTicksToGo ≠ 0 := (noisy_iff s).mp h
  unfold Beep
  by_cases hv : volume = 0
  · simp [hv]
  · simp [hv, ht]

/-- Witness for C3: a second Beep issued while the 440 Hz tone is sounding. -/
theorem c3_beep_while_noisy_frame_witness :
    Noisy (Beep 440 100 3 (Init initialState).1).1 = true ∧
    ((Beep 880 50 5 (Beep 440 100 3 (Init initialState).1).1).1.beepTicksToGo =
        (Beep 440 100 3 (Init initialState).1).1.beepTicksToGo ∧
      (Beep 880 50 5 (Beep 440 100 3 (Init initialState).1).1).1.buzzer_period =
        (Beep 440 100 3 (Init initialState).1).1.buzzer_period ∧
      (Beep 880 50 5 (Beep 440 100 3 (Init initialState).1).1).1.buzzer_duty =
        (Beep 440 100 3 (Init initialState).1).1.buzzer_duty ∧
      (Beep 880 50 5 (Beep 440 100 3 (Init initialState).1).1).2 = []) :=
  ⟨by decide,
   c3_beep_while_noisy_frame 880 50 5 (Beep 440 100 3 (Init initialState).1).1 (by decide)⟩

/-- C4 counterexample: at frequency 666666 (period = 3) and volume 5,
onTime = 1 = period/2, so the strict inequality onTime < period/2 claimed for
every frequency > 0 and every table entry fails. -/
theorem c4_counterexample :
    periodOf 666666 = 3 ∧ onTimeOf 666666 5 = 1 ∧
    ¬ onTimeOf 666666 5 < periodOf 666666 / 2 := by decide

/-- C4 (amended): for every volume v in 1..MaxVolume and every frequency,
onTime(v) ≤ period/2, so deadTime = period/2 - onTime never underflows and
the dead time stays non-negative for every table entry. -/
theorem c4_onTime_le_half (frequency volume : Nat)
    (_hv1 : 1 ≤ volume) (_hv2 : volume ≤ MaxVolume) :
    onTimeOf frequency volume ≤ periodOf frequency / 2 :=
  onTime_le_half_period frequency volume

/-- Witness for C4 at 440 Hz, volume 3. -/
theorem c4_onTime_le_half_witness :
    1 ≤ 3 ∧ 3 ≤ MaxVolume ∧ onTimeOf 440 3 ≤ periodOf 440 / 2 :=
  ⟨by decide, by decide, c4_onTime_le_half 440 3 (by decide) (by decide)⟩

/-- C2: from the idle state right after Init, Beep(f, d, v) with f, d, v all
positive makes Noisy() true immediately; Noisy() is still true after each of
the first d-1 Tick calls, and becomes false exactly on the d-th Tick call. -/
theorem c2_beep_noisy_for_duration (frequency ms volume : Nat)
    (_hf : 0 < frequency) (hd : 0 < ms) (hv : 0 < volume) :
    Noisy (Beep frequency ms volume (Init initialState).1).1 = true ∧
    (∀ k, k < ms →
      Noisy (ticksN k (Beep frequency ms volume (Init initialState).1).1) = true) ∧
    Noisy (ticksN ms (Beep frequency ms volume (Init initialState).1).1) = false := by
  have h0 : (Init initialState).1.beepTicksToGo = 0 := rfl
  obtain ⟨hb1, hb2⟩ :=
    beep_from_idle frequency ms volume (Init initialState).1 (by omega) h0
  refine ⟨?_, ?_, ?_⟩
  · rw [noisy_iff, hb1]
    omega
  · intro k hk
    obtain ⟨_, ht⟩ := ticksN_fields k _ hb2
    rw [noisy_iff, ht, hb1]
    omega
  · obtain ⟨_, ht⟩ := ticksN_fields ms _ hb2
    simp [Noisy, ht, hb1]

/-- Witness for C2: the spec scenario Beep(440, 100, 3): Noisy holds
immediately and after 99 ticks, and fails after the 100th tick. -/
theorem c2_beep_noisy_for_duration_witness :
    Noisy (Beep 440 100 3 (Init initialState).1).1 = true ∧
    Noisy (ticksN 99 (Beep 440 100 3 (Init initialState).1).1) = true ∧
    Noisy (ticksN 100 (Beep 440 100 3 (Init initialState).1).1) = false := by
  have h := c2_beep_noisy_for_duration 440 100 3 (by decide) (by decide) (by decide)
  exact ⟨h.1, h.2.1 99 (by decide), h.2.2⟩

/-- C1 counterexample: at frequency 1, volume 1, period/2 - onTime = 970000,
but deadTime is a uint16_t, so the value written to the dead-time registers
carries 52496 = 970000 % 65536 in each half, not 970000: the programmed dead
time is not period/2 - onTime. -/
theorem c1_counterexample :
    periodOf 1 / 2 - onTimeOf 1 1 = 970000 ∧
    (Beep 1 10 1 (Init initialState).1).2.contains
      (HwEvent.deadTimeSet 0 (52496 * 65536 + 52496)) = true ∧
    (Beep 1 10 1 (Init initialState).1).2.contains
      (HwEvent.deadTimeSet 0 (970000 * 65536 + 970000)) = false ∧
    52496 ≠ 970000 := by decide

/-- C1 (amended): for every Beep(frequency, durationTicks, volume) with
frequency > 0 and 1 ≤ volume ≤ MaxVolume made while no tone is active, the
programmed parameters are exactly period = pwmClockFrequency/frequency
(integer division), nominal duty = period/2, and dead time
(period/2 - onTime) mod 2^16 (the uint16_t narrowing; equal to
period/2 - onTime whenever period/2 < 2^16) with
onTime = period * volumeTable[volume-1] / 200, the dead-time value packed
identically into both complementary-output halves of the register; the
channel is enabled, both piezo pins are reconnected to the PWM peripheral,
and remainingTicks is set to durationTicks. -/
theorem c1_beep_programs_pwm (frequency ms volume : Nat) (s : BuzzerState)
    (_hf : 0 < frequency) (hv1 : 1 ≤ volume) (hv2 : volume ≤ MaxVolume)
    (hidle : s.beepTicksToGo = 0) :
    Beep frequency ms volume s =
      ({ s with buzzer_period := periodOf frequency,
                buzzer_duty := periodOf frequency / 2,
                beepTicksToGo := ms, inBuzzer := false },
       [HwEvent.channelInit 0 (periodOf frequency) (periodOf frequency / 2),
        HwEvent.deadTimeEnable 0,
        HwEvent.deadTimeSet 0
          ((periodOf frequency / 2 - onTimeOf frequency volume) % 65536 * 65536 +
            (periodOf frequency / 2 - onTimeOf frequency volume) % 65536),
        HwEvent.deadTimeUpdate 0
          ((periodOf frequency / 2 - onTimeOf frequency volume) % 65536 * 65536 +
            (periodOf frequency / 2 - onTimeOf frequency volume) % 65536),
        HwEvent.channelEnable 0,
        HwEvent.pioConfigure PioMode.periphA PIO_PB0,
        HwEvent.pioConfigure PioMode.periphB PIO_PB5]) := by
  have hv0 : volume ≠ 0 := by omega
  have hcl : ¬ 5 < volume := by
    have h5 : MaxVolume = 5 := rfl
    omega
  unfold Beep
  simp [hv0, hcl, hidle, MaxVolume]

/-- Witness for C1 at Beep(440, 100, 3) from the post-Init state. -/
theorem c1_beep_programs_pwm_witness :
    0 < 440 ∧ 1 ≤ 3 ∧ 3 ≤ MaxVolume ∧ (Init initialState).1.beepTicksToGo = 0 ∧
    Beep 440 100 3 (Init initialState).1 =
      ({ (Init initialState).1 with
            buzzer_period := periodOf 440, buzzer_duty := periodOf 440 / 2,
            beepTicksToGo := 100, inBuzzer := false },
       [HwEvent.channelInit 0 (periodOf 440) (periodOf 440 / 2),
        HwEvent.deadTimeEnable 0,
        HwEvent.deadTimeSet 0
          ((periodOf 440 / 2 - onTimeOf 440 3) % 65536 * 65536 +
            (periodOf 440 / 2 - onTimeOf 440 3) % 65536),
        HwEvent.deadTimeUpdate 0
          ((periodOf 440 / 2 - onTimeOf 440 3) % 65536 * 65536 +
            (periodOf 440 / 2 - onTimeOf 440 3) % 65536),
        HwEvent.channelEnable 0,
        HwEvent.pioConfigure PioMode.periphA PIO_PB0,
        HwEvent.pioConfigure PioMode.periphB PIO_PB5]) :=
  ⟨by decide, by decide, by decide, by decide,
   c1_beep_programs_pwm 440 100 3 (Init initialState).1
     (by decide) (by decide) (by decide) (by decide)⟩

/-- C5: on the non-variant build the duty mapping is inverted and linear:
duty = ((backlightPeriod - 1) * (MaxBrightness - brightness)) / MaxBrightness
for every brightness in 0..MaxBrightness, with brightness 0 giving the
maximum duty backlightPeriod - 1 and brightness MaxBrightness giving duty 0.
MaxBrightness (Configuration.hpp, outside this slice) is the parameter
`maxB`. -/
theorem c5_setbacklight_inverted_linear (maxB brightness : Nat) (s : BuzzerState)
    (hM : 0 < maxB) (_hb : brightness ≤ maxB) :
    (SetBacklight maxB brightness s).1.backlight_duty =
      (backlightPeriodStd - 1) * (maxB - brightness) / maxB ∧
    (SetBacklight maxB 0 s).1.backlight_duty = backlightPeriodStd - 1 ∧
    (SetBacklight maxB maxB s).1.backlight_duty = 0 := by
  refine ⟨rfl, ?_, ?_⟩
  · simp only [SetBacklight, Nat.sub_zero]
    exact Nat.mul_div_cancel _ hM
  · simp [SetBacklight]

/-- Witness for C5 at MaxBrightness = 100, brightness = 25. -/
theorem c5_setbacklight_inverted_linear_witness :
    0 < 100 ∧ 25 ≤ 100 ∧
    ((SetBacklight 100 25 initialState).1.backlight_duty =
        (backlightPeriodStd - 1) * (100 - 25) / 100 ∧
      (SetBacklight 100 0 initialState).1.backlight_duty = backlightPeriodStd - 1 ∧
      (SetBacklight 100 100 initialState).1.backlight_duty = 0) :=
  ⟨by decide, by decide,
   c5_setbacklight_inverted_linear 100 25 initialState (by decide) (by decide)⟩

/-- C6 counterexample: a low pin level indicates the newer inverter
(Buzzer.cpp line 35: the newer displays have PB13 grounded), yet with the pin
low SetBacklight computes the clamped duty minPwm + (maxPwm - minPwm) * ... ,
which at brightness 0 (MaxBrightness 100) is 78, not the full-range value
(backlightPeriod - 1) * ... = 99 that the claim assigns to the newer board. -/
theorem c6_counterexample :
    boardPinIndicatesNewer false = true ∧
    (SetBacklightER false 100 0 (InitER initialState).1).1.backlight_duty =
      minPwm + (maxPwm - minPwm) * (100 - 0) / 100 ∧
    (SetBacklightER false 100 0 (InitER initialState).1).1.backlight_duty = 78 ∧
    (backlightPeriodER - 1) * (100 - 0) / 100 = 99 ∧ (78 : Nat) ≠ 99 := by decide

/-- C6 (amended): on the variant hardware, when the pin indicates the NEWER
inverter (pin reads low), the duty is linear but confined between minPwm and
maxPwm: duty = minPwm + ((maxPwm - minPwm) * (MaxBrightness - brightness)) /
MaxBrightness, and minPwm ≤ duty ≤ maxPwm; when the pin indicates the
older/alternate board (pin reads high), the duty is linear across the full
period range: duty = ((backlightPeriod - 1) * (MaxBrightness - brightness)) /
MaxBrightness, for every brightness in 0..MaxBrightness. -/
theorem c6_setbacklight_er_variants (pinNow : Bool) (maxB brightness : Nat)
    (s : BuzzerState) (hM : 0 < maxB) (_hb : brightness ≤ maxB) :
    (boardPinIndicatesNewer pinNow = true →
      (SetBacklightER pinNow maxB brightness s).1.backlight_duty =
        minPwm + (maxPwm - minPwm) * (maxB - brightness) / maxB ∧
      minPwm ≤ (SetBacklightER pinNow maxB brightness s).1.backlight_duty ∧
      (SetBacklightER pinNow maxB brightness s).1.backlight_duty ≤ maxPwm) ∧
    (boardPinIndicatesNewer pinNow = false →
      (SetBacklightER pinNow maxB brightness s).1.backlight_duty =
        (backlightPeriodER - 1) * (maxB - brightness) / maxB) := by
  cases pinNow with
  | true =>
    refine ⟨fun h => by simp [boardPinIndicatesNewer] at h, fun _ => rfl⟩
  | false =>
    refine ⟨fun _ => ⟨rfl, Nat.le_add_right _ _, ?_⟩,
            fun h => by simp [boardPinIndicatesNewer] at h⟩
    have h1 : (maxPwm - minPwm) * (maxB - brightness) ≤ (maxPwm - minPwm) * maxB :=
      Nat.mul_le_mul_left _ (Nat.sub_le _ _)
    have h2 : (maxPwm - minPwm) * (maxB - brightness) / maxB ≤
        (maxPwm - minPwm) * maxB / maxB := Nat.div_le_div_right h1
    rw [Nat.mul_div_cancel _ hM] at h2
    have h3 : minPwm ≤ maxPwm := by decide
    show minPwm + (maxPwm - minPwm) * (maxB - brightness) / maxB ≤ maxPwm
    omega

/-- Witness for C6 at pin low, MaxBrightness = 100, brightness = 50. -/
theorem c6_setbacklight_er_variants_witness :
    0 < 100 ∧ 50 ≤ 100 ∧
    ((boardPinIndicatesNewer false = true →
      (SetBacklightER false 100 50 initialState).1.backlight_duty =
        minPwm + (maxPwm - minPwm) * (100 - 50) / 100 ∧
      minPwm ≤ (SetBacklightER false 100 50 initialState).1.backlight_duty ∧
      (SetBacklightER false 100 50 initialState).1.backlight_duty ≤ maxPwm) ∧
    (boardPinIndicatesNewer false = false →
      (SetBacklightER false 100 50 initialState).1.backlight_duty =
        (backlightPeriodER - 1) * (100 - 50) / 100)) :=
  ⟨by decide, by decide,
   c6_setbacklight_er_variants false 100 50 initialState (by decide) (by decide)⟩

/-- C7 counterexample: two runs that are identical through Init (the pin
enters Init nowhere: Init only configures it as a pull-up input) but whose
pin levels differ at the moment SetBacklight is called produce different duty
values (99 vs 78), so the selected formula does not depend only on the pin at
Init time. -/
theorem c7_counterexample :
    (SetBacklightER true 100 0 (InitER initialState).1).1.backlight_duty = 99 ∧
    (SetBacklightER false 100 0 (InitER initialState).1).1.backlight_duty = 78 ∧
    (99 : Nat) ≠ 78 := by decide

/-- C7 (amended): the board-identification pin is only configured (as a
pull-up input) at Init, never sampled there; SetBacklight reads the pin at
each call, and the duty it computes is fully determined by the pin level at
the time of that call together with the brightness — it does not depend on
any stored state, so two runs agreeing on the pin at each SetBacklight call
produce identical duty values whatever their earlier history. -/
theorem c7_pin_read_per_call (pinNow : Bool) (maxB brightness : Nat)
    (s t : BuzzerState) :
    (SetBacklightER pinNow maxB brightness s).1.backlight_duty =
      (SetBacklightER pinNow maxB brightness t).1.backlight_duty ∧
    (InitER s).2.contains HwEvent.boardPinSetInputPullup = true := by
  constructor
  · cases pinNow <;> rfl
  · simp [InitER]

end Buzzer
